import Mathlib

/-!
Shallow embedding of the layer-shika windowing system (Wayland layer-shell
overlay window for a Slint UI), covering:

* `src/rendering/femtovg_window.rs` — the render adapter (`FemtoVGWindow`):
  dirty flag, size/scale bookkeeping, conditional render pass;
* `src/windowing/state.rs` — `WindowState`: drawable size, output size,
  pointer position, and `update_size` which mirrors a size into the Slint
  window and the layer surface and commits;
* `src/windowing/event_handler.rs` — the protocol event dispatcher for
  layer-surface Configure/Closed, WlOutput Mode, and pointer events;
* `src/rendering/egl_context.rs` — the EGL context builder and the
  `OpenGLInterface` operations `ensure_current` / `resize`;
* `src/windowing/event_loop.rs` — one iteration of
  `EventLoopHandler::handle_wayland_events`.

Machine integers: Wayland `u32` fields are modelled as `Nat` (the code never
overflows them arithmetically — it only stores and compares), the `i32`
fields of `wl_output::Event::Mode` as `Int`, with the `as u32` cast made
explicit as reduction modulo `2^32`.  The `f64`/`f32` pointer coordinates and
scale factors are modelled as `ℚ`; the only arithmetic performed on them by
the code is one division per coordinate.  Effects on external objects
(`layer_surface.set_size`, `wl_surface.commit`, Slint's
`window.dispatch_event`) are modelled as emitted command lists.  Fallible
external calls (EGL) are modelled as `Except` / oracle parameters.
-/

namespace LayerShika

/-- `slint::PhysicalSize`: `u32` width and height. -/
structure PhysicalSize where
  width : Nat
  height : Nat
deriving DecidableEq, Repr

/-- `slint::LogicalPosition`: `f32` coordinates, modelled as `ℚ`. -/
structure LogicalPosition where
  x : ℚ
  y : ℚ
deriving DecidableEq, Repr

/-- `slint::platform::PointerEventButton` — the dispatcher only ever
constructs `Left`. -/
inductive PointerEventButton
  | left
deriving DecidableEq, Repr

/-- The subset of `slint::platform::WindowEvent` constructed by this
repository (pointer events from the dispatcher, resize and scale-change
notifications from `FemtoVGWindow`). -/
inductive WindowEvent
  | PointerMoved (position : LogicalPosition)
  | PointerExited
  | PointerPressed (button : PointerEventButton) (position : LogicalPosition)
  | PointerReleased (button : PointerEventButton) (position : LogicalPosition)
  | Resized (width height : ℚ)
  | ScaleFactorChanged (scale_factor : ℚ)
deriving DecidableEq, Repr

/-- `slint::WindowSize` — the code only ever constructs
`WindowSize::Physical`. -/
inductive WindowSize
  | Physical (size : PhysicalSize)
deriving DecidableEq, Repr

/-- `WindowSize::to_physical(scale_factor)`: a physical size is returned
unchanged. -/
def WindowSize.to_physical (ws : WindowSize) (_scale_factor : ℚ) : PhysicalSize :=
  match ws with
  | .Physical s => s

/-- `WindowSize::to_logical(scale_factor)`: a physical size is divided by the
scale factor. -/
def WindowSize.to_logical (ws : WindowSize) (scale_factor : ℚ) : ℚ × ℚ :=
  match ws with
  | .Physical s => ((s.width : ℚ) / scale_factor, (s.height : ℚ) / scale_factor)

/-- `FemtoVGWindow` (src/rendering/femtovg_window.rs): the render adapter.
`events` records the `WindowEvent`s dispatched into the owned Slint
`Window` via `dispatch_event`, in order. -/
structure FemtoVGWindow where
  is_dirty : Bool
  size : PhysicalSize
  scale_factor : ℚ
  events : List WindowEvent
deriving DecidableEq, Repr

namespace FemtoVGWindow

/-- `Window::dispatch_event`: the event is handed to the Slint window; we
record it. -/
def dispatch_event (fw : FemtoVGWindow) (ev : WindowEvent) : FemtoVGWindow :=
  { fw with events := fw.events ++ [ev] }

/-- `FemtoVGWindow::set_size`: stores `size.to_physical(scale_factor)` and
dispatches `WindowEvent::Resized` at the logical size. -/
def set_size (fw : FemtoVGWindow) (ws : WindowSize) : FemtoVGWindow :=
  let fw' := { fw with size := ws.to_physical fw.scale_factor }
  fw'.dispatch_event (.Resized (ws.to_logical fw.scale_factor).1 (ws.to_logical fw.scale_factor).2)

/-- `FemtoVGWindow::set_scale_factor`: stores the factor and dispatches
`WindowEvent::ScaleFactorChanged`. -/
def set_scale_factor (fw : FemtoVGWindow) (scale_factor : ℚ) : FemtoVGWindow :=
  { fw with scale_factor := scale_factor,
            events := fw.events ++ [.ScaleFactorChanged scale_factor] }

/-- `WindowAdapter::request_redraw`: sets the dirty flag. -/
def request_redraw (fw : FemtoVGWindow) : FemtoVGWindow :=
  { fw with is_dirty := true }

/-- `FemtoVGWindow::render_frame_if_dirty`.  `render_result` is the value
returned by `FemtoVGRenderer::render()` (an external call).  Returns the new
adapter state, the number of render passes performed, and the error log.
The Rust function's return type is `()`: no error is propagated; on `Err(e)`
it logs `"Error rendering frame: {e}"` and still clears the flag. -/
def render_frame_if_dirty (render_result : Except String Unit)
    (fw : FemtoVGWindow) : FemtoVGWindow × Nat × List String :=
  if fw.is_dirty then
    let log : List String :=
      match render_result with
      | .ok _ => []
      | .error e => ["Error rendering frame: " ++ e]
    ({ fw with is_dirty := false }, 1, log)
  else
    (fw, 0, [])

end FemtoVGWindow

/-- Requests the dispatcher sends to the Wayland objects held by
`WindowState` (`ZwlrLayerSurfaceV1::ack_configure` / `set_size` /
`set_exclusive_zone`, `WlSurface::commit`), recorded in emission order. -/
inductive WaylandCmd
  | AckConfigure (serial : Nat)
  | LayerSetSize (width height : Nat)
  | LayerSetExclusiveZone (zone : Int)
  | Commit
deriving DecidableEq, Repr

/-- `WindowState` (src/windowing/state.rs).  The `Option` fields mirror the
Rust `Option`s: `window` is the weak reference to the `FemtoVGWindow`
(present iff the upgrade succeeds; we inline the pointee's state),
`has_layer_surface` / `has_surface` record whether `layer_surface` /
`surface` are `Some`. -/
structure WindowState where
  has_surface : Bool
  has_layer_surface : Bool
  size : PhysicalSize
  output_size : PhysicalSize
  window : Option FemtoVGWindow
  current_pointer_position : LogicalPosition
  scale_factor : ℚ
  height : Nat
  exclusive_zone : Int
deriving DecidableEq, Repr

namespace WindowState

/-- `WindowState::update_size`: stores the new size; if the window is alive,
forwards it as `WindowSize::Physical` and re-applies the scale factor; if the
layer surface is present, requests the new size and exclusive zone; if the
surface is present, commits. -/
def update_size (s : WindowState) (width height : Nat) :
    WindowState × List WaylandCmd :=
  let new_size : PhysicalSize := ⟨width, height⟩
  let window' := s.window.map fun fw =>
    (fw.set_size (WindowSize.Physical new_size)).set_scale_factor s.scale_factor
  let layerCmds : List WaylandCmd :=
    if s.has_layer_surface then
      [.LayerSetSize width height, .LayerSetExclusiveZone s.exclusive_zone]
    else []
  let commitCmds : List WaylandCmd := if s.has_surface then [.Commit] else []
  ({ s with size := new_size, window := window' }, layerCmds ++ commitCmds)

/-- `WindowState::set_current_pointer_position`: the stored logical position
is physical coordinates divided by the scale factor (the Rust code casts the
`f64` coordinates to `f32` first; coordinates are modelled as `ℚ`). -/
def set_current_pointer_position (s : WindowState) (physical_x physical_y : ℚ) :
    WindowState :=
  { s with current_pointer_position :=
      ⟨physical_x / s.scale_factor, physical_y / s.scale_factor⟩ }

/-- `WindowState::set_output_size`. -/
def set_output_size (s : WindowState) (width height : Nat) : WindowState :=
  { s with output_size := ⟨width, height⟩ }

end WindowState

/-- `zwlr_layer_surface_v1::Event` as matched by the dispatcher: `Configure`
carries a serial and a proposed `u32` geometry; `Closed` carries nothing. -/
inductive LayerSurfaceEvent
  | Configure (serial width height : Nat)
  | Closed
deriving DecidableEq, Repr

/-- `Dispatch<ZwlrLayerSurfaceV1, ()>::event`
(src/windowing/event_handler.rs).  On `Configure` it acknowledges the serial
first, then: if both proposed dimensions are positive it calls
`update_size(output_size().width, height())` (the configured panel height —
the event's geometry is not used); otherwise it re-applies the stored output
size.  On `Closed` it only logs. -/
def handle_layer_surface_event (s : WindowState) :
    LayerSurfaceEvent → WindowState × List WaylandCmd
  | .Configure serial width height =>
      let ack : List WaylandCmd := [.AckConfigure serial]
      if 0 < width ∧ 0 < height then
        let out := s.update_size s.output_size.width s.height
        (out.1, ack ++ out.2)
      else
        let current_size := s.output_size
        let out := s.update_size current_size.width current_size.height
        (out.1, ack ++ out.2)
  | .Closed => (s, [])

/-- The `i32 as u32` cast of `wl_output::Event::Mode`'s dimensions:
two's-complement wrapping, i.e. reduction modulo `2^32`. -/
def i32_as_u32 (x : Int) : Nat := (x % (2 : Int) ^ 32).toNat

/-- `wl_output::Event` as matched by the dispatcher: only `Mode` mutates
state; geometry/scale/name/description/done are logged. -/
inductive OutputEvent
  | Mode (width height : Int)
  | Geometry
  | Scale (factor : Int)
  | Name (name : String)
  | Description (description : String)
  | Done
deriving DecidableEq, Repr

/-- `Dispatch<WlOutput, ()>::event` (src/windowing/event_handler.rs): on
`Mode` it stores `set_output_size(width as u32, height as u32)`; every other
event is only logged. -/
def handle_output_event (s : WindowState) : OutputEvent → WindowState
  | .Mode width height => s.set_output_size (i32_as_u32 width) (i32_as_u32 height)
  | _ => s

/-- `wl_pointer::Event` as matched by the dispatcher.  `Button` carries the
raw button code (ignored by the handler) and whether the wire state matched
`ButtonState::Pressed`. -/
inductive PointerEvent
  | Enter (surface_x surface_y : ℚ)
  | Leave
  | Motion (surface_x surface_y : ℚ)
  | Button (button : Nat) (is_press : Bool)
deriving DecidableEq, Repr

/-- `Dispatch<WlPointer, ()>::event` via `WindowEventHandler`'s
`handle_pointer_enter` / `handle_pointer_leave` / `handle_pointer_motion` /
`handle_pointer_button` (src/windowing/event_handler.rs).  Enter/Motion store
the logical position, then forward `PointerMoved` at it when the window is
alive; Leave forwards `PointerExited`; Button forwards
`PointerPressed`/`PointerReleased` with `PointerEventButton::Left` at the
last stored position. -/
def handle_pointer_event (s : WindowState) : PointerEvent → WindowState
  | .Enter x y =>
      let s' := s.set_current_pointer_position x y
      match s'.window with
      | some fw =>
          { s' with window := some (fw.dispatch_event
              (.PointerMoved s'.current_pointer_position)) }
      | none => s'
  | .Leave =>
      match s.window with
      | some fw => { s with window := some (fw.dispatch_event .PointerExited) }
      | none => s
  | .Motion x y =>
      let s' := s.set_current_pointer_position x y
      match s'.window with
      | some fw =>
          { s' with window := some (fw.dispatch_event
              (.PointerMoved s'.current_pointer_position)) }
      | none => s'
  | .Button _ is_press =>
      let current_position := s.current_pointer_position
      match s.window with
      | some fw =>
          let ev := if is_press then
              WindowEvent.PointerPressed .left current_position
            else
              WindowEvent.PointerReleased .left current_position
          { s with window := some (fw.dispatch_event ev) }
      | none => s

/-- `LayerShikaError` (src/errors.rs).  Every variant carries its formatted
message; the `#[from]` variants carry the displayed source error. -/
inductive LayerShikaError
  | WaylandConnection (msg : String)
  | GlobalInitialization (msg : String)
  | WaylandDispatch (msg : String)
  | EGLContextCreation (msg : String)
  | FemtoVGRendererCreation (msg : String)
  | SlintComponentCreation (msg : String)
  | EventLoop (msg : String)
  | WindowConfiguration (msg : String)
  | Rendering (msg : String)
  | InvalidInput (msg : String)
  | WaylandProtocol (msg : String)
  | PlatformSetup (msg : String)
  | ConnectionFlush (msg : String)
deriving DecidableEq, Repr

/-- `EGLContext` (src/rendering/egl_context.rs): the EGL-side state the code
observes and mutates — whether the context is current on the thread
(`PossiblyCurrentContext::is_current`) and the drawable surface's size. -/
structure EGLContext where
  is_current : Bool
  drawable_size : PhysicalSize
deriving DecidableEq, Repr

/-- Oracle for the fallible external EGL/glutin calls made by the builder and
by `ensure_current`.  `none` means the call succeeds; `some e` means it fails
with displayed error `e`.  `find_configs` is the config iterator returned by
`Display::find_configs` (or its error); configs themselves are opaque. -/
structure EGLEnv where
  display_ptr_nonnull : Bool
  surface_ptr_nonnull : Bool
  new_display : Option String
  find_configs : Except String (List Unit)
  create_context : Option String
  create_window_surface : Option String
  make_current : Option String
deriving Repr

namespace EGLContext

/-- `EGLContext::ensure_current`: transitions only if not already current;
a failing `make_current` surfaces as an `EGLContextCreation` error. -/
def ensure_current (env : EGLEnv) (c : EGLContext) :
    Except LayerShikaError EGLContext :=
  if c.is_current then .ok c
  else
    match env.make_current with
    | none => .ok { c with is_current := true }
    | some e =>
        .error (.EGLContextCreation ("Failed to make context current: " ++ e))

/-- `OpenGLInterface::resize` for `EGLContext`: `ensure_current` first, then
`surface.resize(&context, width, height)`.  The Rust signature takes
`NonZeroU32` arguments; positivity is imposed as a hypothesis at use
sites. -/
def resize (env : EGLEnv) (c : EGLContext) (width height : Nat) :
    Except LayerShikaError EGLContext := do
  let c' ← c.ensure_current env
  return { c' with drawable_size := ⟨width, height⟩ }

end EGLContext

/-- `EGLContextBuilder` (src/rendering/egl_context.rs): the three fields
`build` validates.  `config_template` and `context_attributes` default when
absent and carry no observable state here. -/
structure EGLContextBuilder where
  display_id : Option Unit
  surface_id : Option Unit
  size : Option PhysicalSize
deriving Repr

/-- `create_wayland_display_handle`: fails with an `InvalidInput` error iff
`NonNull::new` on the display pointer returns `None`. -/
def create_wayland_display_handle (env : EGLEnv) : Except LayerShikaError Unit :=
  if env.display_ptr_nonnull then .ok ()
  else .error (.InvalidInput "Failed to create NonNull pointer for display")

/-- `Display::new` inside `build`. -/
def new_glutin_display (env : EGLEnv) : Except LayerShikaError Unit :=
  match env.new_display with
  | none => .ok ()
  | some e => .error (.EGLContextCreation ("Failed to create display: " ++ e))

/-- `select_config`: propagates a `find_configs` failure, and maps an empty
config iterator to the named "no compatible configuration" error. -/
def select_config (env : EGLEnv) : Except LayerShikaError Unit :=
  match env.find_configs with
  | .error e => .error (.EGLContextCreation ("Failed to find configs: " ++ e))
  | .ok configs =>
      match configs.head? with
      | some c => .ok c
      | none => .error (.EGLContextCreation "No compatible EGL configurations found.")

/-- `create_context`: `Display::create_context`, error mapped to the named
context-creation error. -/
def create_context (env : EGLEnv) : Except LayerShikaError Unit :=
  match env.create_context with
  | none => .ok ()
  | some e => .error (.EGLContextCreation ("Failed to create context: " ++ e))

/-- `create_surface_handle`: `NonNull::new` on the surface pointer. -/
def create_surface_handle (env : EGLEnv) : Except LayerShikaError Unit :=
  if env.surface_ptr_nonnull then .ok ()
  else .error (.InvalidInput "Failed to create NonNull pointer for surface")

/-- `create_surface`: `NonZeroU32::new` on width then height (zero is an
`InvalidInput` error, not clamped), then `Display::create_window_surface`. -/
def create_surface (env : EGLEnv) (size : PhysicalSize) :
    Except LayerShikaError PhysicalSize :=
  if size.width = 0 then .error (.InvalidInput "Width cannot be zero")
  else if size.height = 0 then .error (.InvalidInput "Height cannot be zero")
  else
    match env.create_window_surface with
    | none => .ok size
    | some e =>
        .error (.EGLContextCreation ("Failed to create window surface: " ++ e))

/-- `make_current` at the end of `build` ("Unable to activate EGL
context"). -/
def activate_context (env : EGLEnv) : Except LayerShikaError Unit :=
  match env.make_current with
  | none => .ok ()
  | some e =>
      .error (.EGLContextCreation ("Unable to activate EGL context: " ++ e ++
        ". This may indicate a problem with the graphics drivers."))

/-- `Option::ok_or_else` as used on the builder's required fields. -/
def requireField {α : Type} (o : Option α) (e : LayerShikaError) :
    Except LayerShikaError α :=
  match o with
  | some a => .ok a
  | none => .error e

/-- `EGLContextBuilder::build` (src/rendering/egl_context.rs), in source
order: required-field checks, display handle, glutin display, config
selection, context creation, surface handle, surface creation (with the
zero-size checks), final activation.  Total — the Rust function returns
`Result` on every path and never panics. -/
def EGLContextBuilder.build (env : EGLEnv) (b : EGLContextBuilder) :
    Except LayerShikaError EGLContext := do
  let _ ← requireField b.display_id (.InvalidInput "Display ID is required")
  let _ ← requireField b.surface_id (.InvalidInput "Surface ID is required")
  let size ← requireField b.size (.InvalidInput "Size is required")
  let _ ← create_wayland_display_handle env
  let _ ← new_glutin_display env
  let _ ← select_config env
  let _ ← create_context env
  let _ ← create_surface_handle env
  let surface_size ← create_surface env size
  let _ ← activate_context env
  return { is_current := true, drawable_size := surface_size }

/-- One iteration body of `EventLoopHandler::handle_wayland_events`
(src/windowing/event_loop.rs): flush the connection, read the queue (when
the read guard is obtained), dispatch pending messages — each failure
propagated as an error — then advance timers and call
`render_frame_if_dirty`, whose render outcome never produces an error. -/
def handle_wayland_events (flush read_queue dispatch : Except String Unit)
    (render_result : Except String Unit) (fw : FemtoVGWindow) :
    Except String (FemtoVGWindow × Nat × List String) := do
  let _ ← match flush with
    | .ok _ => Except.ok ()
    | .error e => Except.error ("Failed to flush connection: " ++ e)
  let _ ← match read_queue with
    | .ok _ => Except.ok ()
    | .error e => Except.error ("Failed to read Wayland events: " ++ e)
  let _ ← match dispatch with
    | .ok _ => Except.ok ()
    | .error e => Except.error ("Failed to dispatch Wayland events: " ++ e)
  return fw.render_frame_if_dirty render_result

/-! Concrete fixtures used by counterexamples and witnesses. -/

/-- A live render adapter: clean, default size, scale factor 2, no events
dispatched yet. -/
def exWindow : FemtoVGWindow :=
  { is_dirty := false, size := ⟨0, 0⟩, scale_factor := 2, events := [] }

/-- A fully wired `WindowState` as produced by the windowing-system setup:
surface and layer surface present, a 1920x1080 output already reported,
configured panel height 30, exclusive zone -1, scale factor 2. -/
def exState : WindowState :=
  { has_surface := true
    has_layer_surface := true
    size := ⟨0, 0⟩
    output_size := ⟨1920, 1080⟩
    window := some exWindow
    current_pointer_position := ⟨0, 0⟩
    scale_factor := 2
    height := 30
    exclusive_zone := -1 }

/-- An EGL environment in which every external call succeeds and exactly one
compatible configuration exists. -/
def exEnv : EGLEnv :=
  { display_ptr_nonnull := true
    surface_ptr_nonnull := true
    new_display := none
    find_configs := .ok [()]
    create_context := none
    create_window_surface := none
    make_current := none }

/-- A not-current EGL context with a 1x1 drawable. -/
def exContext : EGLContext := { is_current := false, drawable_size := ⟨1, 1⟩ }

/-- Helper: a successful `ensure_current` yields a current context, and a
second `ensure_current` on its result is the identity. -/
lemma ensure_current_ok_spec (env : EGLEnv) (c c' : EGLContext)
    (h : c.ensure_current env = .ok c') :
    c'.is_current = true ∧ c'.ensure_current env = .ok c' := by
  unfold EGLContext.ensure_current at h
  by_cases hc : c.is_current
  · simp [hc] at h
    subst h
    exact ⟨hc, by simp [EGLContext.ensure_current, hc]⟩
  · simp [hc] at h
    cases hmc : env.make_current with
    | none =>
        rw [hmc] at h
        simp at h
        subst h
        exact ⟨rfl, by simp [EGLContext.ensure_current]⟩
    | some e =>
        rw [hmc] at h
        simp at h

/-- C3: `request_redraw()` followed by `render_frame_if_dirty()` performs
exactly one render pass and clears the dirty state; a second consecutive
`render_frame_if_dirty()` with no intervening `request_redraw()` performs
zero renders — for every starting adapter state and every render outcome. -/
theorem redraw_then_render_exactly_once (fw : FemtoVGWindow)
    (res res2 : Except String Unit) :
    (FemtoVGWindow.render_frame_if_dirty res fw.request_redraw).2.1 = 1 ∧
    (FemtoVGWindow.render_frame_if_dirty res fw.request_redraw).1.is_dirty
      = false ∧
    (FemtoVGWindow.render_frame_if_dirty res2
      (FemtoVGWindow.render_frame_if_dirty res fw.request_redraw).1).2.1 = 0 := by
  cases res <;>
    simp [FemtoVGWindow.render_frame_if_dirty, FemtoVGWindow.request_redraw]

/-- C4: an error returned by the renderer's `render()` inside
`render_frame_if_dirty` is logged, never propagated: the event-loop
iteration that invoked it still completes with `Ok`, and when the flag was
set the error message is the sole log entry. -/
theorem render_error_swallowed_and_logged (fw : FemtoVGWindow) (e : String) :
    handle_wayland_events (.ok ()) (.ok ()) (.ok ()) (.error e) fw
      = .ok (FemtoVGWindow.render_frame_if_dirty (.error e) fw) ∧
    (fw.is_dirty = true →
      (FemtoVGWindow.render_frame_if_dirty (.error e) fw).2.2
        = ["Error rendering frame: " ++ e] ∧
      (FemtoVGWindow.render_frame_if_dirty (.error e) fw).1.is_dirty = false) := by
  constructor
  · rfl
  · intro hd
    simp [FemtoVGWindow.render_frame_if_dirty, hd]

/-- Witness for C4 at a dirty adapter and the concrete error "gpu hiccup". -/
theorem render_error_swallowed_and_logged_witness :
    exWindow.request_redraw.is_dirty = true ∧
    (FemtoVGWindow.render_frame_if_dirty (.error "gpu hiccup")
        exWindow.request_redraw).2.2
      = ["Error rendering frame: " ++ "gpu hiccup"] :=
  ⟨rfl,
   ((render_error_swallowed_and_logged exWindow.request_redraw "gpu hiccup").2
      rfl).1⟩

/-- C9: `render_frame_if_dirty` clears the dirty flag even when the render
pass returns an error: after any call that observed the flag set the flag is
false and exactly one render was attempted, and an immediately following
call performs zero renders. -/
theorem dirty_cleared_even_on_render_error (fw : FemtoVGWindow)
    (res res2 : Except String Unit) (hd : fw.is_dirty = true) :
    (FemtoVGWindow.render_frame_if_dirty res fw).1.is_dirty = false ∧
    (FemtoVGWindow.render_frame_if_dirty res fw).2.1 = 1 ∧
    (FemtoVGWindow.render_frame_if_dirty res2
      (FemtoVGWindow.render_frame_if_dirty res fw).1).2.1 = 0 := by
  cases res <;> simp [FemtoVGWindow.render_frame_if_dirty, hd]

/-- Witness for C9: a dirty adapter whose render fails still ends up
clean. -/
theorem dirty_cleared_even_on_render_error_witness :
    exWindow.request_redraw.is_dirty = true ∧
    (FemtoVGWindow.render_frame_if_dirty (.error "boom")
        exWindow.request_redraw).1.is_dirty = false ∧
    (FemtoVGWindow.render_frame_if_dirty (.error "boom")
        exWindow.request_redraw).2.1 = 1 ∧
    (FemtoVGWindow.render_frame_if_dirty (.ok ())
      (FemtoVGWindow.render_frame_if_dirty (.error "boom")
        exWindow.request_redraw).1).2.1 = 0 :=
  ⟨rfl,
   dirty_cleared_even_on_render_error exWindow.request_redraw
     (.error "boom") (.ok ()) rfl⟩

/-- C10: the WlOutput `Mode` handler stores `width as u32` / `height as u32`
(reduction modulo `2^32`); a negative in-range dimension wraps — it is
neither rejected nor clamped to zero. -/
theorem mode_negative_dimension_wraps (s : WindowState) (w h : Int)
    (hlo : -(2 : Int) ^ 31 ≤ w) (hneg : w < 0) :
    handle_output_event s (.Mode w h)
      = { s with output_size := ⟨i32_as_u32 w, i32_as_u32 h⟩ } ∧
    (handle_output_event s (.Mode w h)).output_size.width
      = (w + 2 ^ 32).toNat ∧
    (handle_output_event s (.Mode w h)).output_size.width ≠ 0 := by
  refine ⟨rfl, ?_, ?_⟩ <;>
    simp only [handle_output_event, WindowState.set_output_size, i32_as_u32] <;>
    omega

/-- Witness for C10: a `Mode` event with width `-1` stores `4294967295`. -/
theorem mode_negative_dimension_wraps_witness :
    (-(2 : Int) ^ 31 ≤ -1 ∧ (-1 : Int) < 0) ∧
    (handle_output_event exState (.Mode (-1) 1080)).output_size.width
      = ((-1 : Int) + 2 ^ 32).toNat ∧
    ((-1 : Int) + 2 ^ 32).toNat = 4294967295 :=
  ⟨⟨by decide, by decide⟩,
   (mode_negative_dimension_wraps exState (-1) 1080 (by decide) (by decide)).2.1,
   by decide⟩

/-- C7: `ensure_current` is idempotent — it leaves an already-current
context unchanged, and after any successful call the context is current and
a second call is the identity; `resize(width, height)` for strictly positive
dimensions first re-currents via `ensure_current` and then sets the drawable
to exactly (width, height), leaving the context current. -/
theorem ensure_current_idempotent_resize_exact :
    (∀ (env : EGLEnv) (c : EGLContext), c.is_current = true →
        c.ensure_current env = .ok c) ∧
    (∀ (env : EGLEnv) (c c' : EGLContext), c.ensure_current env = .ok c' →
        c'.is_current = true ∧ c'.ensure_current env = .ok c') ∧
    (∀ (env : EGLEnv) (c c' : EGLContext) (width height : Nat),
        0 < width → 0 < height → c.ensure_current env = .ok c' →
        c.resize env width height
          = .ok { c' with drawable_size := ⟨width, height⟩ } ∧
        c'.is_current = true) := by
  refine ⟨?_, ?_, ?_⟩
  · intro env c hc
    simp [EGLContext.ensure_current, hc]
  · intro env c c' h
    exact ensure_current_ok_spec env c c' h
  · intro env c c' width height _ _ h
    refine ⟨?_, (ensure_current_ok_spec env c c' h).1⟩
    simp [EGLContext.resize, h]

/-- Witness for C7: a not-current context with `make_current` succeeding is
made current once, a repeat call is the identity, and `resize 640 480` sets
the drawable to exactly 640x480. -/
theorem ensure_current_idempotent_resize_exact_witness :
    exContext.ensure_current exEnv
      = .ok { is_current := true, drawable_size := ⟨1, 1⟩ } ∧
    EGLContext.ensure_current exEnv { is_current := true, drawable_size := ⟨1, 1⟩ }
      = .ok { is_current := true, drawable_size := ⟨1, 1⟩ } ∧
    exContext.resize exEnv 640 480
      = .ok { is_current := true, drawable_size := ⟨640, 480⟩ } :=
  ⟨rfl,
   (ensure_current_idempotent_resize_exact.2.1 exEnv exContext
      { is_current := true, drawable_size := ⟨1, 1⟩ } rfl).2,
   (ensure_current_idempotent_resize_exact.2.2 exEnv exContext
      { is_current := true, drawable_size := ⟨1, 1⟩ } 640 480
      (by decide) (by decide) rfl).1⟩

/-- C8: `EGLContextBuilder::build` is total (never panics) and yields a
distinct, named error for each failure cause: missing display id, missing
surface id, missing size, zero width, zero height (invalid-input errors, not
clamped), no compatible EGL configuration, context-creation failure, and
activation failure (named context-creation errors). -/
theorem build_error_taxonomy :
    (∀ (env : EGLEnv) (sid : Option Unit) (sz : Option PhysicalSize),
        EGLContextBuilder.build env ⟨none, sid, sz⟩
          = .error (.InvalidInput "Display ID is required")) ∧
    (∀ (env : EGLEnv) (sz : Option PhysicalSize),
        EGLContextBuilder.build env ⟨some (), none, sz⟩
          = .error (.InvalidInput "Surface ID is required")) ∧
    (∀ (env : EGLEnv),
        EGLContextBuilder.build env ⟨some (), some (), none⟩
          = .error (.InvalidInput "Size is required")) ∧
    (∀ (h : Nat),
        EGLContextBuilder.build exEnv ⟨some (), some (), some ⟨0, h⟩⟩
          = .error (.InvalidInput "Width cannot be zero")) ∧
    (∀ (w : Nat), w ≠ 0 →
        EGLContextBuilder.build exEnv ⟨some (), some (), some ⟨w, 0⟩⟩
          = .error (.InvalidInput "Height cannot be zero")) ∧
    (∀ (w h : Nat),
        EGLContextBuilder.build { exEnv with find_configs := .ok [] }
            ⟨some (), some (), some ⟨w, h⟩⟩
          = .error (.EGLContextCreation "No compatible EGL configurations found.")) ∧
    (∀ (w h : Nat) (e : String),
        EGLContextBuilder.build { exEnv with create_context := some e }
            ⟨some (), some (), some ⟨w, h⟩⟩
          = .error (.EGLContextCreation ("Failed to create context: " ++ e))) ∧
    (∀ (w h : Nat) (e : String), w ≠ 0 → h ≠ 0 →
        EGLContextBuilder.build { exEnv with make_current := some e }
            ⟨some (), some (), some ⟨w, h⟩⟩
          = .error (.EGLContextCreation ("Unable to activate EGL context: " ++ e ++
              ". This may indicate a problem with the graphics drivers."))) := by
  refine ⟨?_, ?_, ?_, ?_, ?_, ?_, ?_, ?_⟩
  · intro env sid sz
    rfl
  · intro env sz
    rfl
  · intro env
    rfl
  · intro h
    rfl
  · intro w hw
    cases w with
    | zero => exact absurd rfl hw
    | succ n => rfl
  · intro w h
    rfl
  · intro w h e
    rfl
  · intro w h e hw hh
    cases w with
    | zero => exact absurd rfl hw
    | succ n =>
        cases h with
        | zero => exact absurd rfl hh
        | succ m => rfl

/-- Witness for C8 at the hypotheses-bearing conjuncts: width 3, height 0 is
rejected as the named zero-height invalid-input error, and an activation
failure on a valid 3x4 size surfaces as the named activation error. -/
theorem build_error_taxonomy_witness :
    ((3 : Nat) ≠ 0 ∧ (4 : Nat) ≠ 0) ∧
    EGLContextBuilder.build exEnv ⟨some (), some (), some ⟨3, 0⟩⟩
      = .error (.InvalidInput "Height cannot be zero") ∧
    EGLContextBuilder.build { exEnv with make_current := some "egl lost" }
        ⟨some (), some (), some ⟨3, 4⟩⟩
      = .error (.EGLContextCreation ("Unable to activate EGL context: " ++
          "egl lost" ++ ". This may indicate a problem with the graphics drivers.")) :=
  ⟨⟨by decide, by decide⟩,
   build_error_taxonomy.2.2.2.2.1 3 (by decide),
   build_error_taxonomy.2.2.2.2.2.2.2 3 4 "egl lost" (by decide) (by decide)⟩

/-- C1 counterexample: a Configure proposing 300x50, acknowledged by the
handler, on a state whose output is 1920x1080 with configured height 30,
leaves the drawable size different from the acknowledged Configure
geometry (it becomes 1920x30). -/
theorem configure_geometry_not_adopted_cex :
    (handle_layer_surface_event exState (.Configure 1 300 50)).1.size
      ≠ ⟨300, 50⟩ := by
  decide

/-- C1 (amended): for every acknowledged Configure with proposed width > 0
and height > 0, the drawable size after handling — both `WindowState.size`
and the `FemtoVGWindow`'s size — equals (OutputSize.width, configured panel
height), a value the application derives from the output size and its own
configuration, not the Configure event's proposed geometry. -/
theorem configure_sets_size_from_output_and_config (s : WindowState)
    (serial width height : Nat) (hw : 0 < width) (hh : 0 < height) :
    (handle_layer_surface_event s (.Configure serial width height)).1.size
      = ⟨s.output_size.width, s.height⟩ ∧
    (handle_layer_surface_event s (.Configure serial width height)).2.head?
      = some (.AckConfigure serial) ∧
    ∀ fw, s.window = some fw →
      Option.map FemtoVGWindow.size
          (handle_layer_surface_event s (.Configure serial width height)).1.window
        = some ⟨s.output_size.width, s.height⟩ := by
  refine ⟨?_, ?_, ?_⟩
  · simp [handle_layer_surface_event, hw, hh, WindowState.update_size]
  · simp [handle_layer_surface_event, hw, hh, WindowState.update_size]
  · intro fw hfw
    simp [handle_layer_surface_event, hw, hh, WindowState.update_size, hfw,
      FemtoVGWindow.set_size, FemtoVGWindow.set_scale_factor,
      FemtoVGWindow.dispatch_event, WindowSize.to_physical]

/-- Witness for C1's amended theorem at `exState` and Configure(1, 300, 50):
the drawable size becomes 1920x30 (output width, configured height). -/
theorem configure_sets_size_from_output_and_config_witness :
    ((0 : Nat) < 300 ∧ (0 : Nat) < 50) ∧
    (handle_layer_surface_event exState (.Configure 1 300 50)).1.size
      = ⟨exState.output_size.width, exState.height⟩ :=
  ⟨⟨by decide, by decide⟩,
   (configure_sets_size_from_output_and_config exState 1 300 50
      (by decide) (by decide)).1⟩

/-- C2: a Configure with width = 0 or height = 0 is acknowledged and leaves
OutputSize and the configured height (the fixed component of RequestedSize)
unchanged; the handler re-applies the previously known output size — the
drawable size becomes the stored output size and the layer surface is asked
for exactly that size — rather than collapsing the surface to zero. -/
theorem configure_zero_reapplies_output_size (s : WindowState)
    (serial width height : Nat) (hz : width = 0 ∨ height = 0) :
    (handle_layer_surface_event s (.Configure serial width height)).1.output_size
      = s.output_size ∧
    (handle_layer_surface_event s (.Configure serial width height)).1.height
      = s.height ∧
    (handle_layer_surface_event s (.Configure serial width height)).1.size
      = s.output_size ∧
    (handle_layer_surface_event s (.Configure serial width height)).2.head?
      = some (.AckConfigure serial) ∧
    (s.has_layer_surface = true →
      WaylandCmd.LayerSetSize s.output_size.width s.output_size.height
        ∈ (handle_layer_surface_event s (.Configure serial width height)).2) := by
  have hcond : ¬(0 < width ∧ 0 < height) := by
    rcases hz with h | h <;> omega
  refine ⟨?_, ?_, ?_, ?_, ?_⟩ <;>
    simp [handle_layer_surface_event, hcond, WindowState.update_size]

/-- Witness for C2 at `exState` and Configure(7, 0, 30): output size stays
1920x1080 and the drawable size is re-set to it. -/
theorem configure_zero_reapplies_output_size_witness :
    ((0 : Nat) = 0 ∨ (30 : Nat) = 0) ∧
    (handle_layer_surface_event exState (.Configure 7 0 30)).1.output_size
      = exState.output_size ∧
    (handle_layer_surface_event exState (.Configure 7 0 30)).1.size
      = exState.output_size :=
  ⟨Or.inl rfl,
   (configure_zero_reapplies_output_size exState 7 0 30 (Or.inl rfl)).1,
   (configure_zero_reapplies_output_size exState 7 0 30 (Or.inl rfl)).2.2.1⟩

/-- C6 counterexample: dispatching Closed leaves the state untouched and
marks nothing; a Configure handled immediately afterwards still commits the
surface (and resizes the layer surface), so the surface is not unusable
after Closed. -/
theorem closed_then_configure_still_commits_cex :
    handle_layer_surface_event exState .Closed = (exState, []) ∧
    WaylandCmd.Commit ∈
      (handle_layer_surface_event
        (handle_layer_surface_event exState .Closed).1
        (.Configure 2 300 50)).2 := by
  exact ⟨rfl, by decide⟩

/-- C6 (amended): on Closed the handler only logs — the state is returned
unchanged and no request is sent — and any subsequently handled Configure
still acknowledges, resizes and commits: whenever the surface is present, a
commit is emitted. -/
theorem closed_only_logs_surface_stays_usable (s : WindowState)
    (serial width height : Nat) (hs : s.has_surface = true) :
    handle_layer_surface_event s .Closed = (s, []) ∧
    (handle_layer_surface_event s (.Configure serial width height)).2.head?
      = some (.AckConfigure serial) ∧
    WaylandCmd.Commit
      ∈ (handle_layer_surface_event s (.Configure serial width height)).2 := by
  refine ⟨rfl, ?_, ?_⟩ <;>
    by_cases hc : 0 < width ∧ 0 < height <;>
    simp [handle_layer_surface_event, hc, WindowState.update_size, hs]

/-- Witness for C6's amended theorem at `exState`: Closed is a no-op and the
next Configure still emits a commit. -/
theorem closed_only_logs_surface_stays_usable_witness :
    exState.has_surface = true ∧
    handle_layer_surface_event exState .Closed = (exState, []) ∧
    WaylandCmd.Commit
      ∈ (handle_layer_surface_event exState (.Configure 9 0 0)).2 :=
  ⟨rfl,
   (closed_only_logs_surface_stays_usable exState 9 0 0 rfl).1,
   (closed_only_logs_surface_stays_usable exState 9 0 0 rfl).2.2⟩

/-- C5: a pointer Enter or Motion at physical (x, y) with scale factor
s > 0 stores the logical position (x/s, y/s) and forwards `PointerMoved` at
it; a Button event that follows forwards `PointerPressed` on press and
`PointerReleased` on release at that last stored logical position, with the
button always normalized to the logical Left button, whatever the wire
button code. -/
theorem pointer_logical_position_and_left_button (s : WindowState) (x y : ℚ)
    (fw : FemtoVGWindow) (hscale : 0 < s.scale_factor)
    (hwin : s.window = some fw) :
    (handle_pointer_event s (.Enter x y)).current_pointer_position
      = ⟨x / s.scale_factor, y / s.scale_factor⟩ ∧
    (handle_pointer_event s (.Enter x y)).window
      = some (fw.dispatch_event
          (.PointerMoved ⟨x / s.scale_factor, y / s.scale_factor⟩)) ∧
    (handle_pointer_event s (.Motion x y)).current_pointer_position
      = ⟨x / s.scale_factor, y / s.scale_factor⟩ ∧
    (handle_pointer_event s (.Motion x y)).window
      = some (fw.dispatch_event
          (.PointerMoved ⟨x / s.scale_factor, y / s.scale_factor⟩)) ∧
    ∀ code : Nat,
      (handle_pointer_event (handle_pointer_event s (.Enter x y))
          (.Button code true)).window
        = some ((fw.dispatch_event
            (.PointerMoved ⟨x / s.scale_factor, y / s.scale_factor⟩)).dispatch_event
            (.PointerPressed .left ⟨x / s.scale_factor, y / s.scale_factor⟩)) ∧
      (handle_pointer_event (handle_pointer_event s (.Enter x y))
          (.Button code false)).window
        = some ((fw.dispatch_event
            (.PointerMoved ⟨x / s.scale_factor, y / s.scale_factor⟩)).dispatch_event
            (.PointerReleased .left ⟨x / s.scale_factor, y / s.scale_factor⟩)) := by
  refine ⟨?_, ?_, ?_, ?_, ?_⟩ <;>
    simp [handle_pointer_event, WindowState.set_current_pointer_position, hwin]

/-- Witness for C5: physical (100, 50) at scale factor 2 yields the logical
position (50, 25), and the following Button press dispatches
`PointerPressed` with the Left button at (50, 25). -/
theorem pointer_logical_position_and_left_button_witness :
    ((0 : ℚ) < exState.scale_factor ∧ exState.window = some exWindow) ∧
    (handle_pointer_event exState (.Enter 100 50)).current_pointer_position
      = ⟨100 / exState.scale_factor, 50 / exState.scale_factor⟩ ∧
    (handle_pointer_event exState (.Enter 100 50)).current_pointer_position
      = ⟨50, 25⟩ ∧
    (handle_pointer_event (handle_pointer_event exState (.Enter 100 50))
        (.Button 272 true)).window
      = some ((exWindow.dispatch_event (.PointerMoved ⟨50, 25⟩)).dispatch_event
          (.PointerPressed .left ⟨50, 25⟩)) :=
  ⟨⟨by norm_num [exState], rfl⟩,
   (pointer_logical_position_and_left_button exState 100 50 exWindow
      (by norm_num [exState]) rfl).1,
   by
     simp [handle_pointer_event, WindowState.set_current_pointer_position,
       exState]
     norm_num,
   by
     simp [handle_pointer_event, WindowState.set_current_pointer_position,
       exState, exWindow, FemtoVGWindow.dispatch_event]
     norm_num⟩

end LayerShika
